import Mathlib

/-
Verification of the arithmetic expression parsing/evaluation engines of the
repository `thefu/rust-achievement`, directory `expression_parsing_calculation`.

The repository contains two engines:
  * `src/expression_parsing_algorithm.rs`: tokenize -> to_postfix ->
    evaluate_postfix over f64 (namespace `Shunting` below);
  * `src/main.rs`: a single-pass precedence-climbing evaluator over i32
    (namespace `Climb` below).

Modelling conventions:
  * Rust panics (`panic!`, `unwrap()` on None/Err, integer division by zero,
    `try_into().unwrap()` on a negative value) are made explicit: functions
    return `Except` and a panic is the `.error` case carrying the panic kind.
  * `f64` values are modelled as exact rationals (`Frac`) extended with the
    IEEE special values (`FP`): every numeric literal and every arithmetic
    result reached in the properties below is a small dyadic/decimal value on
    which double-precision arithmetic is exact, so no rounding is modelled.
    `powf` is modelled for integral exponents (the only exponents reached
    here); a fractional exponent is mapped to `nan` as out of modelled scope.
  * `i32` is modelled as `Int`; the properties below only exercise values far
    from the overflow boundary, so two's-complement wrap-around is not
    modelled (saturation of the `f64 as i32` cast is).
-/

/-! ### Exact rational numbers that the kernel can compute with

Mathlib's `Rat` normalizes through `Nat.gcd`, which is defined by
well-founded recursion and therefore does not reduce inside the kernel.
`Frac` is the same mathematical object (numerator, positive denominator,
reduced by the gcd) implemented with a fuel-based Euclidean gcd so that all
arithmetic below evaluates by `rfl`/`decide`. -/

/-- Euclidean gcd with explicit fuel. The first argument strictly decreases
at every step, so fuel `m + 1` always suffices for `gcdF fuel m n`. -/
def gcdF : Nat → Nat → Nat → Nat
  | 0, _, n => n
  | f + 1, m, n => if m = 0 then n else gcdF f (n % m) m

/-- Kernel-computable gcd. -/
def natGcd (m n : Nat) : Nat := gcdF (m + 1) m n

/-- An exact rational number: integer numerator over natural denominator.
All values are built through `Frac.norm`, which keeps the fraction reduced
with a positive denominator. -/
structure Frac where
  num : Int
  den : Nat
deriving DecidableEq, Repr

/-- Build the reduced representative of `n / d` (with `d = 0` mapped to `0`,
a case never reached by the guarded callers below). -/
def Frac.norm (n : Int) (d : Nat) : Frac :=
  if d = 0 then ⟨0, 1⟩
  else
    let g := natGcd n.natAbs d
    if g = 0 then ⟨0, 1⟩ else ⟨n.tdiv g, d / g⟩

def Frac.ofInt (n : Int) : Frac := ⟨n, 1⟩

def Frac.add (x y : Frac) : Frac :=
  Frac.norm (x.num * y.den + y.num * x.den) (x.den * y.den)

def Frac.sub (x y : Frac) : Frac :=
  Frac.norm (x.num * y.den - y.num * x.den) (x.den * y.den)

def Frac.mul (x y : Frac) : Frac :=
  Frac.norm (x.num * y.num) (x.den * y.den)

/-- Exact division `x / y`; only called with `y ≠ 0` by the guarded callers. -/
def Frac.div (x y : Frac) : Frac :=
  if y.num < 0 then Frac.norm (-(x.num * y.den)) (x.den * y.num.natAbs)
  else Frac.norm (x.num * y.den) (x.den * y.num.natAbs)

def Frac.npow (x : Frac) (k : Nat) : Frac := Frac.norm (x.num ^ k) (x.den ^ k)

def Frac.inv (x : Frac) : Frac :=
  if x.num < 0 then Frac.norm (-(x.den : Int)) x.num.natAbs
  else Frac.norm (x.den : Int) x.num.natAbs

/-- Numeric value of a list of decimal digits (most significant first). -/
def digitsNat (l : List Char) : Nat :=
  l.foldl (fun a c => a * 10 + (c.toNat - 48)) 0

/-! ### The two-phase engine of `src/expression_parsing_algorithm.rs` -/

namespace Shunting

/-- A Rust panic (process abort). The source engine signals every error path
by panicking; the embedding surfaces those aborts as `Except.error`. -/
inductive RustPanic where
  | panic (msg : String)
deriving DecidableEq, Repr

/-- Model of `f64`: an exact rational, or one of the IEEE special values.
Finite arithmetic is exact (no rounding is modelled; every value reached in
the theorems below is exactly representable in double precision). -/
inductive FP where
  | num (q : Frac)
  | inf
  | negInf
  | nan
deriving DecidableEq, Repr

def FP.neg : FP → FP
  | .num q => .num (Frac.norm (-q.num) q.den)
  | .inf => .negInf
  | .negInf => .inf
  | .nan => .nan

/-- IEEE addition on the model. -/
def FP.add : FP → FP → FP
  | .num a, .num b => .num (a.add b)
  | .nan, _ => .nan
  | _, .nan => .nan
  | .inf, .negInf => .nan
  | .negInf, .inf => .nan
  | .inf, _ => .inf
  | _, .inf => .inf
  | .negInf, _ => .negInf
  | _, .negInf => .negInf

/-- IEEE subtraction: `x - y = x + (-y)` exactly. -/
def FP.sub (x y : FP) : FP := FP.add x (FP.neg y)

/-- Sign dispatch for multiplying/dividing a special value by a finite one. -/
def FP.bySign (a : Frac) (p n : FP) : FP :=
  if 0 < a.num then p else if a.num < 0 then n else .nan

/-- IEEE multiplication on the model. -/
def FP.mul : FP → FP → FP
  | .num a, .num b => .num (a.mul b)
  | .nan, _ => .nan
  | _, .nan => .nan
  | .inf, .inf => .inf
  | .inf, .negInf => .negInf
  | .negInf, .inf => .negInf
  | .negInf, .negInf => .inf
  | .inf, .num b => FP.bySign b .inf .negInf
  | .num a, .inf => FP.bySign a .inf .negInf
  | .negInf, .num b => FP.bySign b .negInf .inf
  | .num a, .negInf => FP.bySign a .negInf .inf

/-- IEEE division on the model: a finite value divided by (positive) zero is
`±inf` by the sign of the numerator, `0/0` is `nan` (the source literals have
no negative zero, which is therefore not modelled). -/
def FP.div : FP → FP → FP
  | .num a, .num b =>
    if b.num = 0 then
      if 0 < a.num then .inf else if a.num < 0 then .negInf else .nan
    else .num (a.div b)
  | .nan, _ => .nan
  | _, .nan => .nan
  | .inf, .inf => .nan
  | .inf, .negInf => .nan
  | .negInf, .inf => .nan
  | .negInf, .negInf => .nan
  | .inf, .num b => if b.num < 0 then .negInf else .inf
  | .negInf, .num b => if b.num < 0 then .inf else .negInf
  | .num _, .inf => .num (Frac.ofInt 0)
  | .num _, .negInf => .num (Frac.ofInt 0)

/-- Model of `f64::powf` on the cases the program reaches: a finite base with
a finite integral exponent (`x ^ 0 = 1`, negative integral exponents through
the exact reciprocal, `0` to a negative power is `+inf`). Fractional
exponents and special-value operands are transcendental or unreached and are
mapped to `nan` as out of modelled scope. -/
def FP.powf : FP → FP → FP
  | .num a, .num b =>
    if b.num = 0 then .num (Frac.ofInt 1)
    else if b.den = 1 then
      if 0 ≤ b.num then .num (a.npow b.num.toNat)
      else if a.num = 0 then .inf
      else .num (Frac.inv (a.npow (-b.num).toNat))
    else .nan
  | _, _ => .nan

/-- `Token` of `expression_parsing_algorithm.rs` (lines 1-7). -/
inductive Token where
  | Number (v : FP)
  | Operator (c : Char)
  | LeftParen
  | RightParen
deriving DecidableEq, Repr

/-- Model of `str::parse::<f64>()` restricted to the strings `tokenize` can
hand it: sequences of decimal digits and dots. At most one dot and at least
one digit-or-dot-with-a-digit-side is accepted (Rust rejects `""`, `"."`,
`"1.2.3"`); the value is read exactly (decimal literals of the magnitudes
used here are exactly representable, so rounding is not modelled). -/
def parseF64 (l : List Char) : Option Frac :=
  if (l.filter (fun c => c = '.')).length = 0 then
    if l = [] then none else some (Frac.ofInt (digitsNat l))
  else if (l.filter (fun c => c = '.')).length = 1 then
    let ip := l.takeWhile (fun c => c ≠ '.')
    let fl := (l.dropWhile (fun c => c ≠ '.')).tail
    if ip = [] ∧ fl = [] then none
    else some (Frac.norm ((digitsNat ip : Int) * 10 ^ fl.length + (digitsNat fl : Int)) (10 ^ fl.length))
  else none

/-- The `num_str.parse().unwrap()` flush step of `tokenize` (lines 24-29,
37-42, 47-51, 57-60): an empty buffer emits nothing; a non-empty buffer that
fails to parse is an `unwrap` panic. -/
def flushNum (numStr : List Char) (tokens : List Token) : Except RustPanic (List Token) :=
  if numStr = [] then .ok tokens
  else
    match parseF64 numStr with
    | some q => .ok (tokens ++ [Token.Number (FP.num q)])
    | none => .error (RustPanic.panic "number parse unwrap")

/-- The character loop of `tokenize` (lines 10-63). State: remaining input,
pending numeric buffer `num_str`, tokens emitted so far. Note that the `'('`
arm of the source pushes `LeftParen` without flushing the buffer. -/
def tokenizeGo : List Char → List Char → List Token → Except RustPanic (List Token)
  | [], numStr, tokens => flushNum numStr tokens
  | c :: rest, numStr, tokens =>
    if ('0' ≤ c ∧ c ≤ '9') ∨ c = '.' then
      tokenizeGo rest (numStr ++ [c]) tokens
    else if c = '+' ∨ c = '-' ∨ c = '*' ∨ c = '/' ∨ c = '^' then
      match flushNum numStr tokens with
      | .ok tks => tokenizeGo rest [] (tks ++ [Token.Operator c])
      | .error e => .error e
    else if c = '(' then
      tokenizeGo rest numStr (tokens ++ [Token.LeftParen])
    else if c = ')' then
      match flushNum numStr tokens with
      | .ok tks => tokenizeGo rest [] (tks ++ [Token.RightParen])
      | .error e => .error e
    else if c = ' ' then
      match flushNum numStr tokens with
      | .ok tks => tokenizeGo rest [] tks
      | .error e => .error e
    else .error (RustPanic.panic "Invalid character in expression")

/-- `tokenize` (lines 10-63). Any character outside digits, `.`, the five
operators, parentheses and `' '` hits `panic!("Invalid character in
expression")`. -/
def tokenize (expr : String) : Except RustPanic (List Token) :=
  tokenizeGo expr.data [] []

/-- `precedence` (lines 66-78). -/
def precedence (op : Char) : Nat :=
  if op = '+' ∨ op = '-' then 1
  else if op = '*' ∨ op = '/' then 2
  else if op = '^' then 3
  else 0

/-- The inner `while let Some(Token::Operator(top_op))` loop of `to_postfix`
(lines 96-104): pop every stacked operator of precedence `≥` the incoming
one (note `>=`, with no associativity distinction) to the output; stop at a
`LeftParen` or an empty stack. Stack head is the top. -/
def popGE (op : Char) : List Token → List Token → List Token × List Token
  | Token.Operator topOp :: rest, output =>
    if precedence op ≤ precedence topOp then
      popGE op rest (output ++ [Token.Operator topOp])
    else (Token.Operator topOp :: rest, output)
  | stack, output => (stack, output)

/-- The `RightParen` arm of `to_postfix` (lines 111-121): pop to the output
until a `LeftParen` is popped and discarded; an empty stack ends the loop
silently (no error is possible in the source). -/
def popUntilLParen : List Token → List Token → List Token × List Token
  | [], output => ([], output)
  | Token.LeftParen :: rest, output => (rest, output)
  | t :: rest, output => popUntilLParen rest (output ++ [t])

/-- The token loop of `to_postfix` (lines 88-128). At end of input the
remaining stack — including any unmatched `LeftParen` — is drained into the
output (lines 126-128). -/
def toPostfixGo : List Token → List Token → List Token → List Token
  | [], stack, output => output ++ stack
  | Token.Number v :: rest, stack, output =>
    toPostfixGo rest stack (output ++ [Token.Number v])
  | Token.Operator op :: rest, stack, output =>
    match popGE op stack output with
    | (stack2, output2) => toPostfixGo rest (Token.Operator op :: stack2) output2
  | Token.LeftParen :: rest, stack, output =>
    toPostfixGo rest (Token.LeftParen :: stack) output
  | Token.RightParen :: rest, stack, output =>
    match popUntilLParen stack output with
    | (stack2, output2) => toPostfixGo rest stack2 output2

/-- `to_postfix` (lines 81-131). The source returns a plain `Vec<Token>`:
it is total and has no error path at all. -/
def to_postfix (tokens : List Token) : List Token := toPostfixGo tokens [] []

/-- The token loop of `evaluate_postfix` (lines 139-165) with the final
`stack.pop().unwrap()` (line 167). Popping an operand off an empty stack is
an `unwrap` panic; a parenthesis token is `panic!("Invalid token in postfix
expression")`; at the end the TOP value is returned whatever else remains
below it. Stack head is the top. -/
def evalPostfixGo : List Token → List FP → Except RustPanic FP
  | [], stack =>
    match stack with
    | v :: _ => .ok v
    | [] => .error (RustPanic.panic "pop unwrap on empty stack")
  | Token.Number v :: rest, stack => evalPostfixGo rest (v :: stack)
  | Token.Operator op :: rest, stack =>
    match stack with
    | b :: a :: stack2 =>
      if op = '+' then evalPostfixGo rest (FP.add a b :: stack2)
      else if op = '-' then evalPostfixGo rest (FP.sub a b :: stack2)
      else if op = '*' then evalPostfixGo rest (FP.mul a b :: stack2)
      else if op = '/' then evalPostfixGo rest (FP.div a b :: stack2)
      else if op = '^' then evalPostfixGo rest (FP.powf a b :: stack2)
      else .error (RustPanic.panic "Unknown operator")
    | _ => .error (RustPanic.panic "pop unwrap on empty stack")
  | _ :: _, _ => .error (RustPanic.panic "Invalid token in postfix expression")

/-- `evaluate_postfix` (lines 134-168). -/
def evaluate_postfix (tokens : List Token) : Except RustPanic FP :=
  evalPostfixGo tokens []

/-- `expression_parsing_algorithm` (lines 173-183): the full
tokenize → to_postfix → evaluate_postfix pipeline. -/
def expression_parsing_algorithm (expr : String) : Except RustPanic FP :=
  match tokenize expr with
  | .error e => .error e
  | .ok tokens =>
    let rpn := to_postfix tokens
    evaluate_postfix rpn

end Shunting

/-! ### The precedence-climbing engine of `src/main.rs` -/

namespace Climb

/-- Observable outcomes of the `main.rs` engine: `parseError` is the
`Err(ExpError::ParseError(..))` value the source returns; `panic` is a Rust
process abort (integer division by zero, `try_into().unwrap()` on a negative
exponent); `fuel` marks exhaustion of the recursion bound of the embedding
and is never reached on the inputs considered. -/
inductive RErr where
  | parseError (msg : String)
  | panic (msg : String)
  | fuel
deriving DecidableEq, Repr

/-- `Token` of `main.rs` (lines 21-31). `Number` carries the `f64` payload
(always a nonnegative integer value: `scan_number` reads bare digit runs). -/
inductive Token where
  | Number (n : Frac)
  | Plus
  | Minus
  | Multiply
  | Divide
  | Power
  | LParen
  | RParen
deriving DecidableEq, Repr

/-- `ASSOC_LEFT` (line 33). -/
def ASSOC_LEFT : Int := 0

/-- `ASSOC_RIGHT` (line 35). -/
def ASSOC_RIGHT : Int := 1

/-- `Token::is_operator` (lines 71-79). -/
def Token.is_operator : Token → Bool
  | .Plus | .Minus | .Multiply | .Divide | .Power => true
  | _ => false

/-- `Token::precedence` (lines 83-95). -/
def Token.precedence : Token → Int
  | .Plus | .Minus => 1
  | .Multiply | .Divide => 2
  | .Power => 3
  | _ => 0

/-- `Token::assoc` (lines 99-108). -/
def Token.assoc : Token → Int
  | .Power => ASSOC_RIGHT
  | _ => ASSOC_LEFT

/-- `Token::compute` (lines 111-127), on `i32` operands. Rust `/` on `i32`
panics when the divisor is zero; `right.try_into().unwrap()` panics when the
exponent is negative. Division otherwise truncates toward zero
(`Int.tdiv`). `i32` overflow is outside the modelled value range. -/
def Token.compute : Token → Int → Int → Except RErr (Option Int)
  | .Plus, l, r => .ok (some (l + r))
  | .Minus, l, r => .ok (some (l - r))
  | .Multiply, l, r => .ok (some (l * r))
  | .Divide, l, r =>
    if r = 0 then .error (RErr.panic "attempt to divide by zero")
    else .ok (some (l.tdiv r))
  | .Power, l, r =>
    if r < 0 then .error (RErr.panic "try_into unwrap on negative exponent")
    else .ok (some (l ^ r.toNat))
  | _, _, _ => .ok none

/-- `Tokenizer::scan_operator` (lines 183-203) as a character table. -/
def charToken (c : Char) : Option Token :=
  if c = '+' then some Token.Plus
  else if c = '-' then some Token.Minus
  else if c = '*' then some Token.Multiply
  else if c = '/' then some Token.Divide
  else if c = '^' then some Token.Power
  else if c = '(' then some Token.LParen
  else if c = ')' then some Token.RParen
  else none

/-- The `Iterator` of `Tokenizer` (lines 144-228), run to completion:
whitespace is skipped (`clear_whitespace`), a digit starts `scan_number`
(a maximal digit run parsed exactly), any other character goes through
`scan_operator` — and an unrecognized character makes `next()` return
`None`, which silently ENDS the token stream. The `Nat` argument is
structural fuel: every step consumes at least one character, so fuel equal
to the length of the input never runs out. -/
def climbTokensF : Nat → List Char → List Token
  | 0, _ => []
  | _, [] => []
  | Nat.succ f, c :: rest =>
    if c.isWhitespace then climbTokensF f rest
    else if c.isDigit then
      Token.Number (Frac.ofInt (digitsNat ((c :: rest).takeWhile Char.isDigit))) ::
        climbTokensF f (rest.dropWhile Char.isDigit)
    else
      match charToken c with
      | some t => t :: climbTokensF f rest
      | none => []

/-- The whole token stream of `Tokenizer::new(input)`. -/
def climbTokens (l : List Char) : List Token := climbTokensF l.length l

/-- The `n as i32` cast of `compute_atom` (line 302): saturating truncation
toward zero (the tokenizer only produces finite nonnegative values, so the
`NaN` case of the Rust cast cannot arise). -/
def f64_as_i32 (q : Frac) : Int :=
  if q.num < -(2 ^ 31) * (q.den : Int) then -(2 ^ 31)
  else if (2 ^ 31 - 1) * (q.den : Int) < q.num then 2 ^ 31 - 1
  else q.num.tdiv q.den

mutual

/-- `Expr::compute_atom` (lines 299-320): a number, or a parenthesized
subexpression whose next token must be the closing `RParen`. The first
argument is recursion fuel (the source recursion terminates because every
nested call consumes input; the fuel over-approximates the call depth). -/
def computeAtom : Nat → List Token → Except RErr (Int × List Token)
  | 0, _ => .error RErr.fuel
  | Nat.succ fuel, toks =>
    match toks with
    | [] => .error (RErr.parseError "Unexpected end of input")
    | Token.Number n :: rest => .ok (f64_as_i32 n, rest)
    | Token.LParen :: rest =>
      match computeExpr fuel 1 rest with
      | .ok (v, Token.RParen :: rest2) => .ok (v, rest2)
      | .ok (_, _) => .error (RErr.parseError "Expected closing parenthesis")
      | .error e => .error e
    | _ :: _ => .error (RErr.parseError "Unexpected token")

/-- The `loop` of `Expr::compute_expr` (lines 261-294): peek the next token;
stop unless it is an operator of precedence `≥ min_prec`; compute the
right-hand side at precedence `+1` for left-associative operators (and
unchanged for the right-associative `^`), then fold with `Token::compute`. -/
def climbLoop : Nat → Int → Int → List Token → Except RErr (Int × List Token)
  | 0, _, _, _ => .error RErr.fuel
  | Nat.succ fuel, minPrec, lhs, toks =>
    match toks with
    | [] => .ok (lhs, [])
    | t :: rest =>
      if t.is_operator = false ∨ t.precedence < minPrec then .ok (lhs, t :: rest)
      else
        let nextPrec := if t.assoc = ASSOC_LEFT then t.precedence + 1 else t.precedence
        match computeExpr fuel nextPrec rest with
        | .error e => .error e
        | .ok (rhs, rest2) =>
          match Token.compute t lhs rhs with
          | .error e => .error e
          | .ok none => .error (RErr.parseError "Unexpected expr")
          | .ok (some res) => climbLoop fuel minPrec res rest2

/-- `Expr::compute_expr` (lines 257-296). -/
def computeExpr : Nat → Int → List Token → Except RErr (Int × List Token)
  | 0, _, _ => .error RErr.fuel
  | Nat.succ fuel, minPrec, toks =>
    match computeAtom fuel toks with
    | .error e => .error e
    | .ok (lhs, rest) => climbLoop fuel minPrec lhs rest

end

/-- `Expr::eval` (lines 243-254) on a fresh `Expr::new(input)`: compute at
minimum precedence 1 and then require the token stream to be exhausted.
Fuel `4 * (tokens + 1)` strictly dominates the recursion depth, which grows
by at most a constant per consumed token. -/
def eval (input : String) : Except RErr Int :=
  let toks := climbTokens input.data
  match computeExpr (4 * (toks.length + 1)) 1 toks with
  | .error e => .error e
  | .ok (v, rest) =>
    if rest = [] then .ok v
    else .error (RErr.parseError "Unexpected token")

end Climb

/-! ### Claim theorems -/

/-- C1: the claim says every phase returns a tagged Result and no input can
make an operation panic. The code does the opposite: on each of the three
malformed inputs named by the claim the pipeline reaches a Rust panic — an
`unwrap()` of an empty operand-stack pop for `"3 + )"` and `"+3"`, and the
`panic!("Invalid token in postfix expression")` arm for `"(3+4"` (whose
unmatched `LeftParen` is drained into the postfix output). -/
theorem claim_C1_malformed_inputs_panic :
    Shunting.expression_parsing_algorithm "3 + )" =
      .error (Shunting.RustPanic.panic "pop unwrap on empty stack") ∧
    Shunting.expression_parsing_algorithm "(3+4" =
      .error (Shunting.RustPanic.panic "Invalid token in postfix expression") ∧
    Shunting.expression_parsing_algorithm "+3" =
      .error (Shunting.RustPanic.panic "pop unwrap on empty stack") :=
  ⟨rfl, rfl, rfl⟩

/-- C2 counterexample: the claim says `"2^3^2"` evaluates to 512 and that
the converter never pops an equal-precedence `^`. In the two-phase engine
`to_postfix` compares precedences with `>=`, so the stacked `^` IS popped
before the second `^` is pushed, the postfix program is `2 3 ^ 2 ^`, and the
pipeline returns 64, not 512. -/
theorem claim_C2_counterexample :
    Shunting.expression_parsing_algorithm "2^3^2" =
      .ok (Shunting.FP.num (Frac.ofInt 64)) ∧
    Shunting.to_postfix
        [Shunting.Token.Number (Shunting.FP.num (Frac.ofInt 2)),
         Shunting.Token.Operator '^',
         Shunting.Token.Number (Shunting.FP.num (Frac.ofInt 3)),
         Shunting.Token.Operator '^',
         Shunting.Token.Number (Shunting.FP.num (Frac.ofInt 2))] =
      [Shunting.Token.Number (Shunting.FP.num (Frac.ofInt 2)),
       Shunting.Token.Number (Shunting.FP.num (Frac.ofInt 3)),
       Shunting.Token.Operator '^',
       Shunting.Token.Number (Shunting.FP.num (Frac.ofInt 2)),
       Shunting.Token.Operator '^'] ∧
    Shunting.FP.num (Frac.ofInt 64) ≠ Shunting.FP.num (Frac.ofInt 512) :=
  ⟨rfl, rfl, by decide⟩

/-- C2 amended: only the precedence-climbing variant treats `^` as
right-associative — `Expr::eval("2^3^2")` is 512 = 2^(3^2) — while the
two-phase engine pops the equal-precedence `^` and returns 64 = (2^3)^2. -/
theorem claim_C2_amended :
    Climb.eval "2^3^2" = .ok 512 ∧
    Shunting.expression_parsing_algorithm "2^3^2" =
      .ok (Shunting.FP.num (Frac.ofInt 64)) :=
  ⟨rfl, rfl⟩

/-- C3: the claim says a residue of more than one value at the end of
postfix evaluation fails with `ParseError::MalformedExpression`. The code
ends with `stack.pop().unwrap()`: for `"3 4"` (postfix `3 4`) it silently
returns the TOP value 4.0 and reports nothing; and an operator reaching the
stack with fewer than two values does not produce an error value either — it
panics (claim C1's theorem exhibits this on `"+3"`). -/
theorem claim_C3_residual_values_not_rejected :
    Shunting.expression_parsing_algorithm "3 4" =
      .ok (Shunting.FP.num (Frac.ofInt 4)) :=
  rfl

/-- C4: the claim says unmatched parentheses make `to_postfix` fail with
`ParseError::UnmatchedParenthesis` and that it never emits parenthesis
tokens. The source `to_postfix` returns a plain `Vec<Token>` with no error
path: on the tokens of `"(3+4"` the final drain emits the unmatched
`LeftParen` into the postfix output, and on the tokens of `"3+)"` the
unmatched `RightParen` loop empties the stack and continues silently. -/
theorem claim_C4_parens_not_rejected :
    Shunting.to_postfix
        [Shunting.Token.LeftParen,
         Shunting.Token.Number (Shunting.FP.num (Frac.ofInt 3)),
         Shunting.Token.Operator '+',
         Shunting.Token.Number (Shunting.FP.num (Frac.ofInt 4))] =
      [Shunting.Token.Number (Shunting.FP.num (Frac.ofInt 3)),
       Shunting.Token.Number (Shunting.FP.num (Frac.ofInt 4)),
       Shunting.Token.Operator '+',
       Shunting.Token.LeftParen] ∧
    Shunting.to_postfix
        [Shunting.Token.Number (Shunting.FP.num (Frac.ofInt 3)),
         Shunting.Token.Operator '+',
         Shunting.Token.RightParen] =
      [Shunting.Token.Number (Shunting.FP.num (Frac.ofInt 3)),
       Shunting.Token.Operator '+'] :=
  ⟨rfl, rfl⟩

/-- C5: the claim says a character outside the recognized set yields
`ParseError::InvalidCharacter` with the character and its position. The
source `tokenize` instead hits `panic!("Invalid character in expression")` —
a process abort carrying neither the character nor a position (and the
`main.rs` tokenizer silently ends its token stream at such a character). -/
theorem claim_C5_invalid_char_panics :
    Shunting.tokenize "3a" =
      .error (Shunting.RustPanic.panic "Invalid character in expression") :=
  rfl

/-- C6: the claim says that under either division-by-zero policy the process
never aborts. The two-phase f64 engine does follow the IEEE-propagation
policy (`"1/0"` returns +inf), but the precedence-climbing variant divides
`i32` values, and Rust `i32` division by zero is a panic — `Expr::eval` on
`"1/0"` aborts the process instead of returning any value. -/
theorem claim_C6_division_by_zero :
    Shunting.expression_parsing_algorithm "1/0" = .ok Shunting.FP.inf ∧
    Climb.eval "1/0" = .error (Climb.RErr.panic "attempt to divide by zero") :=
  ⟨rfl, rfl⟩

/-- C7: precedence and grouping are honored by the two-phase engine:
`"3+4*2"` evaluates to 11 and `"(3+4)*2"` to 14. -/
theorem claim_C7_precedence_and_grouping :
    Shunting.expression_parsing_algorithm "3+4*2" =
      .ok (Shunting.FP.num (Frac.ofInt 11)) ∧
    Shunting.expression_parsing_algorithm "(3+4)*2" =
      .ok (Shunting.FP.num (Frac.ofInt 14)) :=
  ⟨rfl, rfl⟩

/-- C8 counterexample: the claim says the regression expression evaluates to
238.5. The pipeline returns exactly 238 (= 92 + 5 + 135 - 20 + 26), which
differs from 238.5 = 477/2. -/
theorem claim_C8_counterexample :
    Shunting.expression_parsing_algorithm "92 + 5 + 5 * 27 - (92 - 12) / 4 + 26" =
      .ok (Shunting.FP.num (Frac.ofInt 238)) ∧
    Shunting.FP.num (Frac.ofInt 238) ≠ Shunting.FP.num (Frac.norm 477 2) :=
  ⟨rfl, by decide⟩

/-- C8 amended: the full pipeline on the regression expression yields
exactly 238. -/
theorem claim_C8_amended :
    Shunting.expression_parsing_algorithm "92 + 5 + 5 * 27 - (92 - 12) / 4 + 26" =
      .ok (Shunting.FP.num (Frac.ofInt 238)) :=
  rfl

/-- C9 counterexample: the two strategies are not observationally
equivalent. On the syntactically valid expression `"2^3^2"` the two-phase
engine returns 64 while the precedence-climbing evaluator returns 512. -/
theorem claim_C9_counterexample :
    Shunting.expression_parsing_algorithm "2^3^2" =
      .ok (Shunting.FP.num (Frac.ofInt 64)) ∧
    Climb.eval "2^3^2" = .ok 512 ∧
    (512 : Int) ≠ 64 :=
  ⟨rfl, rfl, by decide⟩

/-- C9 amended: the two engines disagree on `^`-chains (64 vs 512, see the
counterexample) and on inexact division (`"7/2"`: 3.5 vs the i32-truncated
3); on valid expressions where associativity and exactness play no role —
the precedence examples and the regression expression — they agree. -/
theorem claim_C9_amended :
    Shunting.expression_parsing_algorithm "7/2" =
      .ok (Shunting.FP.num (Frac.norm 7 2)) ∧
    Climb.eval "7/2" = .ok 3 ∧
    Shunting.expression_parsing_algorithm "3+4*2" =
      .ok (Shunting.FP.num (Frac.ofInt 11)) ∧
    Climb.eval "3+4*2" = .ok 11 ∧
    Shunting.expression_parsing_algorithm "(3+4)*2" =
      .ok (Shunting.FP.num (Frac.ofInt 14)) ∧
    Climb.eval "(3+4)*2" = .ok 14 ∧
    Shunting.expression_parsing_algorithm "92 + 5 + 5 * 27 - (92 - 12) / 4 + 26" =
      .ok (Shunting.FP.num (Frac.ofInt 238)) ∧
    Climb.eval "92 + 5 + 5 * 27 - (92 - 12) / 4 + 26" = .ok 238 :=
  ⟨rfl, rfl, rfl, rfl, rfl, rfl, rfl, rfl⟩

/-- C10: in the precedence-climbing variant, `Token::compute` on `^` with
any negative right operand is the `try_into().unwrap()` panic, and
`Expr::eval("2^(0-1)")` — whose exponent evaluates to -1 — aborts through
that panic instead of returning a Result value. -/
theorem claim_C10_negative_exponent_panics :
    (∀ l r : Int, r < 0 →
      Climb.Token.compute Climb.Token.Power l r =
        .error (Climb.RErr.panic "try_into unwrap on negative exponent")) ∧
    Climb.eval "2^(0-1)" =
      .error (Climb.RErr.panic "try_into unwrap on negative exponent") := by
  constructor
  · intro l r hr
    simp [Climb.Token.compute, hr]
  · rfl

/-- C10 witness: the panic at the concrete operands 2 and -1. -/
theorem claim_C10_witness :
    Climb.Token.compute Climb.Token.Power 2 (-1) =
      .error (Climb.RErr.panic "try_into unwrap on negative exponent") :=
  claim_C10_negative_exponent_panics.1 2 (-1) (by decide)
